import Mathlib

/-!
# Verification of the DFS-CRM matching / reconciliation / link-enrichment core

Shallow embedding of the record-matching, bulk-reconciliation, link-enrichment
and report week-bucketing logic of `src/server-supabase.js`, together with
theorems settling the specification claims about that logic.

Conventions of the embedding:
* JavaScript strings that may be `null`/`undefined` are modelled as `String`
  with `""` standing for the missing value whenever the code only ever tests
  them for truthiness or compares them (`null` and `""` are both falsy and
  neither equals a non-empty string).  The one field compared with `===`
  against ids, `companies.invoice_customer_id`, is modelled as `Option String`
  (`none` = SQL `NULL`).
* A JS object field that may be absent and is written at most once is
  modelled as `Option _` (`none` = key absent).
* The value selected by `emailContacts[0].email || emailContacts[0]` can be a
  string or the entry object itself; `EmailVal` models exactly those values.
-/

/-- JS truthiness of a nullable string column (`null` and `""` are falsy). -/
def truthyOpt : Option String → Bool
  | none => false
  | some s => s != ""

/-- `.toLowerCase().trim()` — the normalization applied to every name before
comparison (lines 1200-1203 and 1358-1361 of `server-supabase.js`).  Written
out on the character list (lower-case every character, drop whitespace from
both ends), matching `String.toLower`/`String.trim`. -/
def normStr (s : String) : String :=
  String.mk
    ((((s.data.map Char.toLower).dropWhile Char.isWhitespace).reverse.dropWhile
        Char.isWhitespace).reverse)

/-- JS `hay.includes(needle)`: `needle` occurs as a contiguous substring. -/
def strIncludes (hay needle : String) : Bool :=
  (List.range (hay.data.length + 1)).any (fun i => needle.data.isPrefixOf (hay.data.drop i))

/-- `[first, last].filter(Boolean).join(' ')` — empty parts dropped, the
rest joined by a single space. -/
def joinName (first lastN : String) : String :=
  if first != "" then (if lastN != "" then first ++ " " ++ lastN else first) else lastN

/-- `phone.replace(/\D/g, '').slice(-10)`: strip non-digits, keep the last 10. -/
def last10 (s : String) : String :=
  let ds := s.data.filter Char.isDigit
  String.mk (ds.drop (ds.length - 10))

/-- A JS value that can sit in an email slot: a plain string, or an
`emailContacts` entry object (whose `email` field is recorded). -/
inductive EmailVal
  | str (s : String)
  | entryObj (email : String)
deriving DecidableEq

/-- JS truthiness of an `EmailVal` (objects are always truthy). -/
def EmailVal.truthy : EmailVal → Bool
  | .str s => s != ""
  | .entryObj _ => true

/-- `entry.email || entry`: a plain string has no `email` field, so the entry
itself is taken; an object yields its `email` field when truthy, else the
object itself. -/
def emailOf : EmailVal → EmailVal
  | .str s => .str s
  | .entryObj e => if e != "" then .str e else .entryObj e

/-- The `address` map on an invoice-app customer document. -/
structure ExtAddress where
  street : String := ""
  city : String := ""
  state : String := ""
  zip : String := ""
deriving DecidableEq

/-- An invoice-app (Firestore) customer document's data. -/
structure ExtCustData where
  firstName : String := ""
  lastName : String := ""
  companyName : String := ""
  phone : String := ""
  customerType : String := ""
  emailContacts : List EmailVal := []
  address : Option ExtAddress := none
deriving DecidableEq

/-- An estimate document (`date` may be missing). -/
structure EstDoc where
  customerId : String := ""
  date : Option String := none
deriving DecidableEq

/-- An invoice document (`date` may be missing). -/
structure InvDoc where
  customerId : String := ""
  date : Option String := none
deriving DecidableEq

/-- The external invoicing store: customer documents keyed by id, plus the
estimate and invoice collections.  An unconfigured integration is modelled as
`Option ExtStore = none` (the `firestore` client being `null`). -/
structure ExtStore where
  customers : List (String × ExtCustData) := []
  estimates : List EstDoc := []
  invoices : List InvDoc := []
deriving DecidableEq

/-- A CRM `companies` row (the columns the matching/link logic touches). -/
structure Company where
  id : String := ""
  name : String := ""
  contact_name : String := ""
  phone : String := ""
  email : EmailVal := .str ""
  address : String := ""
  city : String := ""
  state : String := ""
  zip : String := ""
  type : String := ""
  invoice_customer_id : Option String := none
  last_estimate_date : String := ""
  last_order_date : String := ""
deriving DecidableEq

/-- An invoice customer as materialized by the bulk-match route
(lines 1324-1335); `name` is computed by `fullName` below. -/
structure InvCustomer where
  id : String := ""
  firstName : String := ""
  lastName : String := ""
  companyName : String := ""
  phone : String := ""
  customerType : String := ""
deriving DecidableEq

/-- `[d.firstName, d.lastName].filter(Boolean).join(' ')` — the `name` field
the bulk route stores on each invoice customer. -/
def InvCustomer.fullName (ic : InvCustomer) : String := joinName ic.firstName ic.lastName

/-! ## Matching Engine: the per-pair scores

`matchScoreSingle` is the score one iteration of the `snapshot.forEach` loop
of `GET /integrations/match/:companyId` assigns to a customer document
(lines 1198-1218).  `matchScoreBulk` is the score one iteration of the
`companies.forEach` loop of `GET /integrations/bulk-match` assigns
(lines 1363-1378). -/

/-- The `else if` chain of name rules in the single-company match route
(lines 1205-1218).  The phone check is the *last* `else if`: it is reached
only when no name rule fired. -/
def matchScoreSingle (d : ExtCustData) (c : Company) : Nat :=
  if normStr d.companyName != "" && normStr c.name != "" &&
      normStr d.companyName == normStr c.name then 100
  else if normStr d.companyName != "" && normStr c.name != "" &&
      (strIncludes (normStr d.companyName) (normStr c.name) ||
       strIncludes (normStr c.name) (normStr d.companyName)) then 80
  else if normStr (joinName d.firstName d.lastName) != "" && normStr c.contact_name != "" &&
      normStr (joinName d.firstName d.lastName) == normStr c.contact_name then 70
  else if d.phone != "" && c.phone != "" then
    (if last10 d.phone != "" && last10 c.phone != "" && last10 d.phone == last10 c.phone
     then 90 else 0)
  else 0

/-- The `else if` chain of name rules in the bulk-match route
(lines 1366-1372): exact 100, substring 80, contact name 70,
sole-proprietor 75 — first matching rule wins. -/
def bulkNameScore (ic : InvCustomer) (c : Company) : Nat :=
  if normStr ic.companyName != "" && normStr c.name != "" &&
      normStr ic.companyName == normStr c.name then 100
  else if normStr ic.companyName != "" && normStr c.name != "" &&
      (strIncludes (normStr ic.companyName) (normStr c.name) ||
       strIncludes (normStr c.name) (normStr ic.companyName)) then 80
  else if normStr ic.fullName != "" && normStr c.contact_name != "" &&
      normStr ic.fullName == normStr c.contact_name then 70
  else if normStr ic.fullName != "" && normStr c.name != "" &&
      normStr ic.fullName == normStr c.name then 75
  else 0

/-- The bulk-match per-pair score (lines 1363-1378): the name-rule chain, then
`if (ic.phone && c.phone) { ... score = Math.max(score, 90) }`. -/
def matchScoreBulk (ic : InvCustomer) (c : Company) : Nat :=
  if ic.phone != "" && c.phone != "" && last10 ic.phone != "" && last10 c.phone != "" &&
      last10 ic.phone == last10 c.phone
  then max (bulkNameScore ic c) 90
  else bulkNameScore ic c

/-! ## The claims' scoring rule (spec side)

The spec/claim describes the score as the *maximum over all applicable rules*
with a matching phone raising the result to at least 90 but never lowering it.
These definitions follow the claim's words, for comparison with the code's
scoring functions above. -/

/-- Modelled from the claim wording (C1): the maximum over all applicable
name rules for a bulk-route pair. -/
def specNameMaxBulk (ic : InvCustomer) (c : Company) : Nat :=
  max (max (if normStr ic.companyName != "" && normStr c.name != "" &&
                normStr ic.companyName == normStr c.name then 100 else 0)
           (if normStr ic.companyName != "" && normStr c.name != "" &&
                (strIncludes (normStr ic.companyName) (normStr c.name) ||
                 strIncludes (normStr c.name) (normStr ic.companyName)) then 80 else 0))
      (max (if normStr ic.fullName != "" && normStr c.contact_name != "" &&
                normStr ic.fullName == normStr c.contact_name then 70 else 0)
           (if normStr ic.fullName != "" && normStr c.name != "" &&
                normStr ic.fullName == normStr c.name then 75 else 0))

/-- Modelled from the claim wording (C1): maximum over all applicable rules
for a bulk-route pair, a matching last-10-digit phone raising the score to at
least 90 but never lowering it. -/
def specScoreMaxBulk (ic : InvCustomer) (c : Company) : Nat :=
  if last10 ic.phone != "" && last10 c.phone != "" && last10 ic.phone == last10 c.phone
  then max (specNameMaxBulk ic c) 90 else specNameMaxBulk ic c

/-- Modelled from the claim wording (C1): the maximum over all applicable
name rules for a single-route pair (customer document vs company). -/
def specNameMaxSingle (d : ExtCustData) (c : Company) : Nat :=
  max (max (if normStr d.companyName != "" && normStr c.name != "" &&
                normStr d.companyName == normStr c.name then 100 else 0)
           (if normStr d.companyName != "" && normStr c.name != "" &&
                (strIncludes (normStr d.companyName) (normStr c.name) ||
                 strIncludes (normStr c.name) (normStr d.companyName)) then 80 else 0))
      (max (if normStr (joinName d.firstName d.lastName) != "" && normStr c.contact_name != "" &&
                normStr (joinName d.firstName d.lastName) == normStr c.contact_name then 70 else 0)
           (if normStr (joinName d.firstName d.lastName) != "" && normStr c.name != "" &&
                normStr (joinName d.firstName d.lastName) == normStr c.name then 75 else 0))

/-- Modelled from the claim wording (C1): maximum over all applicable rules
for a single-route pair, a matching last-10-digit phone raising the score to
at least 90 but never lowering it. -/
def specScoreMaxSingle (d : ExtCustData) (c : Company) : Nat :=
  if last10 d.phone != "" && last10 c.phone != "" && last10 d.phone == last10 c.phone
  then max (specNameMaxSingle d c) 90 else specNameMaxSingle d c

/-! ## Bulk Reconciliation Engine (`GET /integrations/bulk-match`, lines 1311-1403) -/

/-- The `match` object of a bulk result (`{ id: c.id, name: c.name }`).
The JS field is named `match`, a reserved word in Lean; we use `best`. -/
structure MatchRef where
  id : String
  name : String
deriving DecidableEq

/-- One element of the bulk-match `results` array. -/
structure BulkResult where
  invoiceCustomer : InvCustomer
  best : Option MatchRef
  score : Nat
  status : String
deriving DecidableEq

/-- One step of the `companies.forEach` best-match loop (lines 1354-1384):
skip already-linked companies, otherwise keep the strictly higher score. -/
def bulkStep (ic : InvCustomer) (acc : Nat × Option MatchRef) (c : Company) :
    Nat × Option MatchRef :=
  if truthyOpt c.invoice_customer_id then acc
  else
    let score := matchScoreBulk ic c
    if score > acc.1 then (score, some ⟨c.id, c.name⟩) else acc

/-- The result the bulk route produces for one invoice customer
(lines 1338-1392): an already-linked company short-circuits to a
`"linked"` row; otherwise the best-match loop runs and the row is
`"suggested"` iff the best score reaches 70. -/
def bulkEntry (companies : List Company) (ic : InvCustomer) : BulkResult :=
  match companies.find? (fun c => c.invoice_customer_id == some ic.id) with
  | some lc => ⟨ic, some ⟨lc.id, lc.name⟩, 100, "linked"⟩
  | none =>
    let best := companies.foldl (bulkStep ic) (0, none)
    ⟨ic, best.2, best.1, if best.1 ≥ 70 then "suggested" else "unmatched"⟩

/-- `order = { suggested: 0, unmatched: 1, linked: 2 }` with `?? 9`
(line 1395). -/
def statusRank (s : String) : Nat :=
  if s == "suggested" then 0 else if s == "unmatched" then 1 else if s == "linked" then 2 else 9

/-- The order induced by the sort comparator
`(order[a.status] ?? 9) - (order[b.status] ?? 9) || b.score - a.score`
(line 1396): `a` may come before `b` iff `a`'s status ranks strictly lower,
or the ranks tie and `a`'s score is at least `b`'s. -/
def bulkLE (a b : BulkResult) : Prop :=
  statusRank a.status < statusRank b.status ∨
    (statusRank a.status = statusRank b.status ∧ b.score ≤ a.score)

instance : DecidableRel bulkLE := fun a b => by unfold bulkLE; exact inferInstance

instance : IsTotal BulkResult bulkLE := ⟨by intro a b; unfold bulkLE; omega⟩

instance : IsTrans BulkResult bulkLE := ⟨by intro a b c; unfold bulkLE; omega⟩

/-- The full bulk reconciliation computation (lines 1338-1396): one result per
invoice customer, sorted by the status/score comparator.  JS `Array.sort` with
a consistent comparator yields a permutation sorted by the comparator's order;
we model it with a (stable) insertion sort. -/
def bulkMatch (companies : List Company) (ics : List InvCustomer) : List BulkResult :=
  List.insertionSort bulkLE (ics.map (bulkEntry companies))

/-- The bulk-match route (lines 1311-1398): fails fast when the integration is
not configured, otherwise reconciles every invoice customer document. -/
def bulkRoute (fs : Option ExtStore) (companies : List Company) :
    Except String (List BulkResult) :=
  match fs with
  | none => .error "Invoice integration not configured"
  | some store =>
    .ok (bulkMatch companies (store.customers.map (fun p =>
      { id := p.1, firstName := p.2.firstName, lastName := p.2.lastName,
        companyName := p.2.companyName, phone := p.2.phone,
        customerType := p.2.customerType })))

/-! ## Single-company match route (`GET /integrations/match/:companyId`,
lines 1128-1287).  The estimate/invoice payload the route attaches to a
successful match (lines 1230-1282) is a read-only projection not touched by
any claim and is omitted; the match decision itself is modelled in full. -/

/-- The outcome of the match decision. -/
structure MatchOutcome where
  matched : Bool
  matchScore : Nat := 0
  linked : Bool := false
  customerId : Option String := none
deriving DecidableEq

/-- The `snapshot.forEach` best-match loop of the single route
(lines 1194-1224). -/
def bestSingle (customers : List (String × ExtCustData)) (c : Company) :
    Nat × Option String :=
  customers.foldl (fun acc p =>
    let score := matchScoreSingle p.2 c
    if score > acc.1 then (score, some p.1) else acc) (0, none)

/-- `if (!match || matchScore < 60) return { matched: false }` (line 1226). -/
def matchSearch (store : ExtStore) (c : Company) : MatchOutcome :=
  let best := bestSingle store.customers c
  if best.2 == none || best.1 < 60 then { matched := false }
  else { matched := true, matchScore := best.1, customerId := best.2 }

/-- The match decision for a fetched company (lines 1141-1228): a saved,
still-existing link is used directly with score 100, otherwise the customer
collection is searched. -/
def matchCompute (store : ExtStore) (c : Company) : MatchOutcome :=
  match c.invoice_customer_id with
  | some cid =>
    if cid != "" && (store.customers.lookup cid).isSome then
      { matched := true, matchScore := 100, linked := true, customerId := some cid }
    else matchSearch store c
  | none => matchSearch store c

/-- The single-company match route (lines 1128-1287): fails fast when the
integration is not configured, errors when the company row is absent, else
computes the match decision. -/
def matchRoute (fs : Option ExtStore) (companies : List Company) (companyId : String) :
    Except String MatchOutcome :=
  match fs with
  | none => .error "Invoice integration not configured"
  | some store =>
    match companies.find? (fun c => c.id == companyId) with
    | none => .error "company row not found"
    | some c => .ok (matchCompute store c)

/-! ## Link Enrichment (`POST /integrations/link`, lines 1405-1494) -/

/-- The `updates` object assembled by the link handler; `none` = key absent.
(`updated_at`, a wall-clock timestamp, is outside the model.) -/
structure LinkUpdates where
  invoice_customer_id : Option String := none
  phone : Option String := none
  email : Option EmailVal := none
  contact_name : Option String := none
  address : Option String := none
  city : Option String := none
  state : Option String := none
  zip : Option String := none
  last_estimate_date : Option String := none
  last_order_date : Option String := none
  type : Option String := none
deriving DecidableEq

/-- The auto-fill block (lines 1430-1442): copy contact info and address
sub-fields from the customer document, only into currently-empty company
fields; the whole address block additionally requires `company.address` to be
empty.  In the source this is a sequence of guarded assignments onto
`updates`; every guard reads only `company`/`custData` (never `updates`) and
each key is assigned by at most one statement, so the block is written here as
the equivalent independent per-field update. -/
def enrichUpdates (company : Company) (cd : ExtCustData) (u0 : LinkUpdates) : LinkUpdates :=
  { u0 with
    phone := if company.phone == "" && cd.phone != "" then some cd.phone else u0.phone
    email := if !company.email.truthy && decide (0 < cd.emailContacts.length) then
        cd.emailContacts.head?.map emailOf else u0.email
    contact_name := if company.contact_name == "" then
        (if joinName cd.firstName cd.lastName != "" then
          some (joinName cd.firstName cd.lastName) else u0.contact_name)
      else u0.contact_name
    address := match cd.address with
      | some ad => if company.address == "" then
          (if ad.street != "" then some ad.street else u0.address) else u0.address
      | none => u0.address
    city := match cd.address with
      | some ad => if company.address == "" then
          (if ad.city != "" && company.city == "" then some ad.city else u0.city) else u0.city
      | none => u0.city
    state := match cd.address with
      | some ad => if company.address == "" then
          (if ad.state != "" && company.state == "" then some ad.state else u0.state) else u0.state
      | none => u0.state
    zip := match cd.address with
      | some ad => if company.address == "" then
          (if ad.zip != "" && company.zip == "" then some ad.zip else u0.zip) else u0.zip
      | none => u0.zip }

/-- The `latestEstDate` / `latestInvDate` scan (lines 1452-1465):
`if (d && (!latest || d > latest)) latest = d`, a truthiness-guarded
lexicographic maximum. -/
def latestDate (ds : List (Option String)) : Option String :=
  ds.foldl (fun latest d =>
    match d with
    | none => latest
    | some s =>
      if s != "" && (match latest with | none => true | some l => decide (l < s))
      then some s else latest) none

/-- The date-sync and type-upgrade block (lines 1445-1471): write the latest
estimate/invoice dates when found, and upgrade `type` to `"Customer"` when
the customer has at least one invoice.  As above, the source's sequential
guarded assignments touch disjoint keys with guards independent of `updates`,
so they are written as one per-field update. -/
def dateTypeUpdates (store : ExtStore) (company : Company) (icId : String)
    (u : LinkUpdates) : LinkUpdates :=
  { u with
    last_estimate_date :=
      match latestDate ((store.estimates.filter (fun e => e.customerId == icId)).map EstDoc.date) with
      | some d2 => some d2
      | none => u.last_estimate_date
    last_order_date :=
      match latestDate ((store.invoices.filter (fun i => i.customerId == icId)).map InvDoc.date) with
      | some d2 => some d2
      | none => u.last_order_date
    type :=
      if (store.invoices.filter (fun i => i.customerId == icId)).length != 0 &&
          company.type != "Customer"
      then some "Customer" else u.type }

/-- The updates the link handler writes for a fetched company
(lines 1419-1471): `invoice_customer_id` unconditionally; then, only when the
Firestore client is configured, enrichment from the customer document (when it
exists) and the date/type sync. -/
def linkCore (fs : Option ExtStore) (company : Company) (icId : String) : LinkUpdates :=
  let u0 : LinkUpdates := { invoice_customer_id := some icId }
  match fs with
  | none => u0
  | some store =>
    dateTypeUpdates store company icId
      (match store.customers.lookup icId with
       | some cd => enrichUpdates company cd u0
       | none => u0)

/-- The `autoUpdated` change summary (lines 1480-1487), in push order. -/
def autoUpdated (company : Company) (u : LinkUpdates) : List String :=
  (if u.type == some "Customer" && company.type != "Customer" then ["type → Customer"] else []) ++
  (if truthyOpt u.last_order_date then ["last order date synced"] else []) ++
  (if truthyOpt u.last_estimate_date then ["last estimate date synced"] else []) ++
  (if truthyOpt u.phone && company.phone == "" then ["phone added"] else []) ++
  (if (u.email.map EmailVal.truthy).getD false && !company.email.truthy then ["email added"] else []) ++
  (if truthyOpt u.contact_name && company.contact_name == "" then ["contact name added"] else []) ++
  (if truthyOpt u.city && company.city == "" then ["address added"] else [])

/-- The supabase `update(updates)` call (lines 1473-1477): set exactly the
keys present on `updates`. -/
def applyUpdates (c : Company) (u : LinkUpdates) : Company :=
  { c with
    invoice_customer_id :=
      match u.invoice_customer_id with | some v => some v | none => c.invoice_customer_id
    phone := u.phone.getD c.phone
    email := u.email.getD c.email
    contact_name := u.contact_name.getD c.contact_name
    address := u.address.getD c.address
    city := u.city.getD c.city
    state := u.state.getD c.state
    zip := u.zip.getD c.zip
    last_estimate_date := u.last_estimate_date.getD c.last_estimate_date
    last_order_date := u.last_order_date.getD c.last_order_date
    type := u.type.getD c.type }

/-- The link route (lines 1406-1494): validates the two ids, fetches the
company row (`.single()` errors when absent), computes the updates, and
responds with the change summary.  Note there is *no* configured-integration
check on this route. -/
def linkRoute (fs : Option ExtStore) (companies : List Company)
    (companyId invoiceCustomerId : String) : Except String (LinkUpdates × List String) :=
  if companyId == "" || invoiceCustomerId == "" then
    .error "companyId and invoiceCustomerId required"
  else
    match companies.find? (fun c => c.id == companyId) with
    | none => .error "company row not found"
    | some company =>
      let u := linkCore fs company invoiceCustomerId
      .ok (u, autoUpdated company u)

/-! ## Report week bucketing (`GET /reports/activity`, lines 1754-1766)

The bucket key is computed with JS `Date`:
```js
const date = new Date(a.date);
const weekStart = new Date(date);
weekStart.setDate(date.getDate() - date.getDay());
const weekKey = weekStart.toISOString().split('T')[0];
```
We model this for an activity date that is a date-only ISO string
(`YYYY-MM-DD`), which ECMA-262 parses as *UTC midnight*, on a host running at
a fixed UTC offset of `off` minutes east of UTC.  `getDate`/`getDay` read the
*local* calendar; `setDate(getDate() - getDay())` shifts the local timestamp
back by `getDay()` whole days (out-of-range day-of-month values normalize);
`toISOString` reports the *UTC* calendar day of the shifted instant. -/

/-- Days-from-civil (proleptic Gregorian, epoch 1970-01-01). -/
def daysFromCivil (y m d : Int) : Int :=
  let y2 := if m ≤ 2 then y - 1 else y
  let era := Int.fdiv y2 400
  let yoe := y2 - era * 400
  let mp := Int.emod (m + 9) 12
  let doy := Int.fdiv (153 * mp + 2) 5 + d - 1
  let doe := yoe * 365 + Int.fdiv yoe 4 - Int.fdiv yoe 100 + doy
  era * 146097 + doe - 719468

/-- Civil date from a day number (inverse of `daysFromCivil`). -/
def civilFromDays (z : Int) : Int × Int × Int :=
  let z2 := z + 719468
  let era := Int.fdiv z2 146097
  let doe := z2 - era * 146097
  let yoe := Int.fdiv (doe - Int.fdiv doe 1460 + Int.fdiv doe 36524 - Int.fdiv doe 146096) 365
  let y := yoe + era * 400
  let doy := doe - (365 * yoe + Int.fdiv yoe 4 - Int.fdiv yoe 100)
  let mp := Int.fdiv (5 * doy + 2) 153
  let d := doy - Int.fdiv (153 * mp + 2) 5 + 1
  let m := mp + (if mp < 10 then 3 else -9)
  (if m ≤ 2 then y + 1 else y, m, d)

/-- `Date.prototype.getDay`: 0 = Sunday.  Day 0 (1970-01-01) was a Thursday. -/
def weekdayOf (z : Int) : Int := Int.emod (z + 4) 7

/-- The UTC calendar day of the `byWeek` bucket key (lines 1757-1760) for an
activity dated on UTC day `day` (from a date-only string), on a host `off`
minutes east of UTC. -/
def byWeekBucketDay (off day : Int) : Int :=
  let localMin := day * 1440 + off
  let localDay := Int.fdiv localMin 1440
  let w := weekdayOf localDay
  Int.fdiv (localMin - w * 1440 - off) 1440

/-- Zero-pad to two digits (for the `YYYY-MM-DD` key). -/
def pad2 (n : Int) : String := if n < 10 then "0" ++ toString n else toString n

/-- The date part of `toISOString()` for a day number. -/
def formatDate (z : Int) : String :=
  let c := civilFromDays z
  toString c.1 ++ "-" ++ pad2 c.2.1 ++ "-" ++ pad2 c.2.2

/-- The `byWeek` bucket key for an activity dated `y-m-d`, as a string. -/
def byWeekKey (off y m d : Int) : String :=
  formatDate (byWeekBucketDay off (daysFromCivil y m d))

/-! ## Helper lemmas -/

/-- A non-empty digit extraction comes from a non-empty phone string. -/
theorem last10_ne (s : String) (h : (last10 s != "") = true) : (s != "") = true := by
  by_cases hs : s = ""
  · subst hs; exact absurd h (by decide)
  · simpa using hs

/-! ## C8 — report week bucketing -/

/-- C8 (amended): the `byWeek` bucketing is timezone-dependent.  On a host
running at UTC (offset 0), every date-only activity date buckets into the
Sunday-aligned start of its own week — the date minus its day-of-week offset,
which is always a Sunday. -/
theorem C8_amended (day : Int) :
    byWeekBucketDay 0 day = day - weekdayOf day ∧ weekdayOf (day - weekdayOf day) = 0 := by
  have h1440 : (1440 : Int) ≠ 0 := by norm_num
  have h0 : Int.fdiv (day * 1440 + 0) 1440 = day := by
    rw [add_zero, Int.mul_fdiv_cancel _ h1440]
  have hb : byWeekBucketDay 0 day
      = Int.fdiv (day * 1440 + 0 - weekdayOf (Int.fdiv (day * 1440 + 0) 1440) * 1440 - 0) 1440 := rfl
  constructor
  · rw [hb, h0, show day * 1440 + 0 - weekdayOf day * 1440 - 0 = (day - weekdayOf day) * 1440 by ring,
      Int.mul_fdiv_cancel _ h1440]
  · show (day - (day + 4) % 7 + 4) % 7 = 0
    have h3 : day - (day + 4) % 7 + 4 = day + 4 - (day + 4) % 7 := by ring
    rw [h3, Int.sub_emod, Int.emod_emod_of_dvd _ (dvd_refl 7), sub_self, Int.zero_emod]

/-- C8 (counterexample): the claim "a Wednesday-dated activity always buckets
into the Sunday of that same week ... regardless of the host locale/timezone"
is false.  2024-03-06 is a Wednesday; its same-week Sunday is 2024-03-03; yet
on a host at UTC-5 (offset −300 minutes, e.g. New York in early March) the
code produces the bucket key "2024-03-04" — a Monday. -/
theorem C8_counterexample :
    byWeekKey (-300) 2024 3 6 = "2024-03-04" ∧
    weekdayOf (daysFromCivil 2024 3 6) = 3 ∧
    daysFromCivil 2024 3 6 - weekdayOf (daysFromCivil 2024 3 6) = daysFromCivil 2024 3 3 ∧
    weekdayOf (daysFromCivil 2024 3 3) = 0 ∧
    weekdayOf (daysFromCivil 2024 3 4) = 1 ∧
    byWeekKey (-300) 2024 3 6 ≠ formatDate (daysFromCivil 2024 3 3) := by
  refine ⟨by decide, by decide, by decide, by decide, by decide, by decide⟩

/-! ## C3 — behaviour when the integration is not configured -/

/-- C3 (amended): with no Firestore client, the match and bulk-match routes
fail fast with the distinct "Invoice integration not configured" error, but
the link route performs no such check: it proceeds, producing updates that
write `invoice_customer_id` onto the company, with every enrichment field
untouched and an empty change summary. -/
theorem C3_amended (companies : List Company) (companyId : String)
    (company : Company) (icId : String) :
    matchRoute none companies companyId = .error "Invoice integration not configured" ∧
    bulkRoute none companies = .error "Invoice integration not configured" ∧
    linkCore none company icId = { invoice_customer_id := some icId } ∧
    autoUpdated company (linkCore none company icId) = [] := by
  refine ⟨rfl, rfl, rfl, ?_⟩
  show autoUpdated company { invoice_customer_id := some icId } = []
  simp [autoUpdated, truthyOpt]

/-- C3 (counterexample): the claim that `linkCompany` fails fast with an
"integration not configured" error, and in particular does not write the
external customer id, is false: with the integration unconfigured the link
route succeeds and its updates set `invoice_customer_id`. -/
theorem C3_counterexample :
    linkRoute none [{ id := "c1" }] "c1" "inv9" =
      .ok ({ invoice_customer_id := some "inv9" }, []) := rfl

/-! ## C9 — linking to a nonexistent external customer -/

/-- C9 (amended): when the external customer id does not exist (and no
estimate/invoice references it), the link operation does not error and does
not leave the company unchanged: it writes exactly `invoice_customer_id`,
skipping all enrichment. -/
theorem C9_amended (store : ExtStore) (company : Company) (icId : String)
    (hcust : store.customers.lookup icId = none)
    (hest : store.estimates.filter (fun e => e.customerId == icId) = [])
    (hinv : store.invoices.filter (fun i => i.customerId == icId) = []) :
    linkCore (some store) company icId = { invoice_customer_id := some icId } := by
  simp only [linkCore, dateTypeUpdates, hcust, hest, hinv, List.map_nil, List.length_nil,
    latestDate, List.foldl_nil]
  simp

/-- Witness for `C9_amended` at a concrete empty store. -/
theorem C9_witness :
    (ExtStore.mk [] [] []).customers.lookup "ghost" = none ∧
    (ExtStore.mk [] [] []).estimates.filter (fun e => e.customerId == "ghost") = [] ∧
    (ExtStore.mk [] [] []).invoices.filter (fun i => i.customerId == "ghost") = [] ∧
    linkCore (some (ExtStore.mk [] [] [])) { id := "c1" } "ghost"
      = { invoice_customer_id := some "ghost" } :=
  ⟨rfl, rfl, rfl, C9_amended _ _ _ rfl rfl rfl⟩

/-- C9 (counterexample): the claim that a nonexistent `externalCustomerId`
surfaces a NotFoundError and leaves the Company unchanged is false: the route
answers success and its updates write `invoice_customer_id := "ghost"`. -/
theorem C9_counterexample :
    linkRoute (some ({} : ExtStore)) [{ id := "c1" }] "c1" "ghost" =
      .ok ({ invoice_customer_id := some "ghost" }, []) := rfl

/-! ## C1 / C2 — scoring rule vs maximum of rules -/

/-- The raw-phone truthiness guards of the bulk phone check are implied by the
non-emptiness of the stripped digits, so the two conditions coincide. -/
theorem bulkPhoneCond_eq (p q : String) :
    (p != "" && q != "" && last10 p != "" && last10 q != "" && last10 p == last10 q)
      = (last10 p != "" && last10 q != "" && last10 p == last10 q) := by
  cases hx : (last10 p != "") with
  | false => simp [hx]
  | true =>
    cases hy : (last10 q != "") with
    | false => simp [hx, hy]
    | true => simp [hx, hy, last10_ne p hx, last10_ne q hy]

/-- A first-match-wins chain over the four name rules against the maximum of
the applicable rules: they agree except when both the 70 and the 75 rule
apply and neither 100 nor 80 does. -/
theorem chain_vs_max (b1 b2 b3 b4 : Bool) :
    (if b1 then 100 else if b2 then 80 else if b3 then 70 else if b4 then 75 else 0 : Nat)
        = max (max (if b1 then 100 else 0) (if b2 then 80 else 0))
              (max (if b3 then 70 else 0) (if b4 then 75 else 0)) ∨
    ((if b1 then 100 else if b2 then 80 else if b3 then 70 else if b4 then 75 else 0 : Nat) = 70 ∧
      max (max (if b1 then 100 else 0) (if b2 then 80 else 0))
          (max (if b3 then 70 else 0) (if b4 then 75 else 0)) = 75) := by
  cases b1 <;> cases b2 <;> cases b3 <;> cases b4 <;> decide

theorem bulkName_cases (ic : InvCustomer) (c : Company) :
    bulkNameScore ic c = specNameMaxBulk ic c ∨
      (bulkNameScore ic c = 70 ∧ specNameMaxBulk ic c = 75) :=
  chain_vs_max _ _ _ _

theorem bulk_score_cases (ic : InvCustomer) (c : Company) :
    matchScoreBulk ic c = specScoreMaxBulk ic c ∨
      (matchScoreBulk ic c = 70 ∧ specScoreMaxBulk ic c = 75) := by
  have hcond := bulkPhoneCond_eq ic.phone c.phone
  rcases bulkName_cases ic c with h | ⟨h1, h2⟩
  · left
    unfold matchScoreBulk specScoreMaxBulk
    rw [hcond, h]
  · unfold matchScoreBulk specScoreMaxBulk
    rw [hcond, h1, h2]
    cases hp : (last10 ic.phone != "" && last10 c.phone != "" && last10 ic.phone == last10 c.phone) with
    | false => exact Or.inr ⟨by decide, by decide⟩
    | true => exact Or.inl (by decide)

theorem singlePhone_imp (d : ExtCustData) (c : Company) :
    (last10 d.phone != "" && last10 c.phone != "" && last10 d.phone == last10 c.phone) = true →
    (d.phone != "" && c.phone != "") = true := by
  intro h
  rw [Bool.and_eq_true, Bool.and_eq_true] at h
  rw [Bool.and_eq_true]
  exact ⟨last10_ne _ h.1.1, last10_ne _ h.1.2⟩

/-- A first-match-wins chain (without the 75 rule, phone checked only when no
name rule fired) never exceeds the claimed rule maximum. -/
theorem chain_le_max (b1 b2 b3 b4 bp1 bp2 : Bool) :
    (if b1 then 100 else if b2 then 80 else if b3 then 70 else
     if bp1 then (if bp2 then 90 else 0) else 0 : Nat)
      ≤ (if bp2 then
           max (max (max (if b1 then 100 else 0) (if b2 then 80 else 0))
                    (max (if b3 then 70 else 0) (if b4 then 75 else 0))) 90
         else
           max (max (if b1 then 100 else 0) (if b2 then 80 else 0))
               (max (if b3 then 70 else 0) (if b4 then 75 else 0))) := by
  cases b1 <;> cases b2 <;> cases b3 <;> cases b4 <;> cases bp1 <;> cases bp2 <;> decide

theorem single_le (d : ExtCustData) (c : Company) :
    matchScoreSingle d c ≤ specScoreMaxSingle d c :=
  chain_le_max _ _ _ _ _ _

/-- C1 (amended): in the bulk route the per-pair score equals the maximum over
all applicable rules (with phone only raising to 90) except in the single
overlap where both the contact-name (70) and sole-proprietor (75) rules apply
and no stronger rule does: there the first-match chain returns 70 while the
rule maximum is 75.  The single-company route lacks the 75 rule and checks the
phone only when no name rule fired, so its first-match-wins score never
exceeds, but can fall below, the claimed rule maximum. -/
theorem C1_amended :
    (∀ (ic : InvCustomer) (c : Company),
        matchScoreBulk ic c = specScoreMaxBulk ic c ∨
          (matchScoreBulk ic c = 70 ∧ specScoreMaxBulk ic c = 75)) ∧
    (∀ (d : ExtCustData) (c : Company), matchScoreSingle d c ≤ specScoreMaxSingle d c) :=
  ⟨bulk_score_cases, single_le⟩

/-- C1 (counterexample): the score is not always the maximum of the applicable
rules.  Bulk route: an invoice customer named "John Doe" (no company name)
against a company whose name and contact name are both "John Doe" fires both
the 70 and the 75 rule; the chain scores 70, the claimed maximum is 75.
Single route: a substring name match with agreeing phones scores 80, while the
claimed maximum (phone raising to at least 90) is 90. -/
theorem C1_counterexample :
    matchScoreBulk { id := "i1", firstName := "John", lastName := "Doe" }
        { id := "c1", name := "John Doe", contact_name := "John Doe" } = 70 ∧
    specScoreMaxBulk { id := "i1", firstName := "John", lastName := "Doe" }
        { id := "c1", name := "John Doe", contact_name := "John Doe" } = 75 ∧
    matchScoreSingle { companyName := "Acme Fencing LLC", phone := "302-555-1212" }
        { name := "Acme", phone := "(302) 555-1212" } = 80 ∧
    specScoreMaxSingle { companyName := "Acme Fencing LLC", phone := "302-555-1212" }
        { name := "Acme", phone := "(302) 555-1212" } = 90 := by
  refine ⟨by decide, by decide, by decide, by decide⟩

/-- C2 (amended): in the bulk route the claim holds — equal non-empty
last-10-digit phones force a score of at least 90, and with the exact-name
rule also applicable the score stays 100.  In the single-company route the
phone rule is only reached when no name rule fired, so equal phones guarantee
90 only in that case. -/
theorem C2_amended :
    (∀ (ic : InvCustomer) (c : Company),
        last10 ic.phone ≠ "" → last10 ic.phone = last10 c.phone →
        90 ≤ matchScoreBulk ic c) ∧
    (∀ (ic : InvCustomer) (c : Company),
        last10 ic.phone ≠ "" → last10 ic.phone = last10 c.phone →
        (normStr ic.companyName != "" && normStr c.name != "" &&
         normStr ic.companyName == normStr c.name) = true →
        matchScoreBulk ic c = 100) ∧
    (∀ (d : ExtCustData) (c : Company),
        last10 d.phone ≠ "" → last10 d.phone = last10 c.phone →
        (normStr d.companyName != "" && normStr c.name != "" &&
         normStr d.companyName == normStr c.name) = false →
        (normStr d.companyName != "" && normStr c.name != "" &&
         (strIncludes (normStr d.companyName) (normStr c.name) ||
          strIncludes (normStr c.name) (normStr d.companyName))) = false →
        (normStr (joinName d.firstName d.lastName) != "" && normStr c.contact_name != "" &&
         normStr (joinName d.firstName d.lastName) == normStr c.contact_name) = false →
        matchScoreSingle d c = 90) := by
  refine ⟨?_, ?_, ?_⟩
  · intro ic c h1 h2
    have hx : (last10 ic.phone != "") = true := by simpa using h1
    have hy : (last10 c.phone != "") = true := by rw [← h2]; exact hx
    have hz : (last10 ic.phone == last10 c.phone) = true := by simp [h2]
    have hcode : (ic.phone != "" && c.phone != "" && last10 ic.phone != "" &&
        last10 c.phone != "" && last10 ic.phone == last10 c.phone) = true := by
      simp [hx, hy, hz, last10_ne _ hx, last10_ne _ hy]
    unfold matchScoreBulk
    rw [hcode]
    simp
  · intro ic c h1 h2 hexact
    have hb : bulkNameScore ic c = 100 := by
      unfold bulkNameScore; rw [hexact]; simp
    unfold matchScoreBulk
    rw [hb]
    cases hc : (ic.phone != "" && c.phone != "" && last10 ic.phone != "" &&
        last10 c.phone != "" && last10 ic.phone == last10 c.phone) <;> decide
  · intro d c h1 h2 hf1 hf2 hf3
    have hx : (last10 d.phone != "") = true := by simpa using h1
    have hy : (last10 c.phone != "") = true := by rw [← h2]; exact hx
    have hz : (last10 d.phone == last10 c.phone) = true := by simp [h2]
    have hraw := singlePhone_imp d c (by simp [hx, hy, hz])
    unfold matchScoreSingle
    rw [hf1, hf2, hf3, hraw]
    simp [hx, hy, hz]

/-- Witness for `C2_amended` at concrete pairs. -/
theorem C2_witness :
    (last10 "3025551212" ≠ "") ∧
    last10 "3025551212" = last10 "(302) 555-1212" ∧
    90 ≤ matchScoreBulk { id := "i1", companyName := "Acme", phone := "3025551212" }
        { id := "c1", name := "Acme", phone := "(302) 555-1212" } ∧
    matchScoreBulk { id := "i1", companyName := "Acme", phone := "3025551212" }
        { id := "c1", name := "Acme", phone := "(302) 555-1212" } = 100 ∧
    matchScoreSingle { phone := "3025551212" }
        { id := "c2", name := "Zeta", phone := "302-555-1212" } = 90 := by
  refine ⟨by decide, by decide, ?_, ?_, ?_⟩
  · exact C2_amended.1 _ _ (by decide) (by decide)
  · exact C2_amended.2.1 _ _ (by decide) (by decide) (by decide)
  · exact C2_amended.2.2 _ _ (by decide) (by decide) (by decide) (by decide) (by decide)

/-- C2 (counterexample): in the single-company route, a pair with equal
non-empty last-10-digit phones but a substring company-name match scores 80,
below the claimed minimum of 90. -/
theorem C2_counterexample :
    last10 "302-555-1212" = last10 "(302) 555-1212" ∧
    last10 "302-555-1212" ≠ "" ∧
    matchScoreSingle { companyName := "Acme Fencing LLC", phone := "302-555-1212" }
        { name := "Acme", phone := "(302) 555-1212" } = 80 := by
  refine ⟨by decide, by decide, by decide⟩

/-! ## C4 — bulk output ordering -/

/-- The claim's status precedence: "suggested" before "unmatched" before
"linked". -/
def specStatusOrder (a b : String) : Prop :=
  (a = "suggested" ∧ (b = "unmatched" ∨ b = "linked")) ∨ (a = "unmatched" ∧ b = "linked")

theorem bulkEntry_status (companies : List Company) (ic : InvCustomer) :
    (bulkEntry companies ic).status = "suggested" ∨
    (bulkEntry companies ic).status = "unmatched" ∨
    (bulkEntry companies ic).status = "linked" := by
  unfold bulkEntry
  cases companies.find? (fun c => c.invoice_customer_id == some ic.id) with
  | some lc => simp
  | none =>
    dsimp only
    split
    · exact Or.inl rfl
    · exact Or.inr (Or.inl rfl)

theorem bulkMatch_status (companies : List Company) (ics : List InvCustomer) :
    ∀ r ∈ bulkMatch companies ics,
      r.status = "suggested" ∨ r.status = "unmatched" ∨ r.status = "linked" := by
  intro r hr
  rw [bulkMatch, List.mem_insertionSort] at hr
  rcases List.mem_map.1 hr with ⟨ic, _, rfl⟩
  exact bulkEntry_status companies ic

/-- C4: the bulk reconciliation output is partitioned and ordered — every
"suggested" row precedes every "unmatched" row, which precedes every "linked"
row, and rows of equal status appear with non-increasing scores. -/
theorem C4_theorem (companies : List Company) (ics : List InvCustomer) :
    (bulkMatch companies ics).Pairwise
      (fun a b => specStatusOrder a.status b.status ∨
        (a.status = b.status ∧ b.score ≤ a.score)) := by
  have hsorted : List.Sorted bulkLE (bulkMatch companies ics) :=
    List.sorted_insertionSort bulkLE _
  have hmem := bulkMatch_status companies ics
  refine List.Pairwise.imp_of_mem ?_ hsorted
  intro a b ha hb hab
  rcases hmem a ha with h | h | h <;> rcases hmem b hb with h2 | h2 | h2 <;>
    rcases hab with hlt | ⟨heq, hs⟩ <;>
    simp_all [specStatusOrder, statusRank, bulkLE]

/-! ## C5 / C10 — already-linked companies and the candidate loop -/

/-- Invariant of the best-match fold: the final candidate is either the
starting accumulator's or comes from a company in the traversed list whose
`invoice_customer_id` is not set. -/
theorem bulkStep_foldl_best (ic : InvCustomer) :
    ∀ (cs : List Company) (acc : Nat × Option MatchRef),
      (cs.foldl (bulkStep ic) acc).2 = acc.2 ∨
      ∃ c ∈ cs, truthyOpt c.invoice_customer_id = false ∧
        (cs.foldl (bulkStep ic) acc).2 = some ⟨c.id, c.name⟩ := by
  intro cs
  induction cs with
  | nil => intro acc; exact Or.inl rfl
  | cons c cs ih =>
    intro acc
    rw [List.foldl_cons]
    rcases ih (bulkStep ic acc c) with h | ⟨c2, hc2, ht, he⟩
    · rw [h]
      unfold bulkStep
      split
      · exact Or.inl rfl
      · rename_i hskip
        dsimp only
        split
        · exact Or.inr ⟨c, List.mem_cons_self c cs,
            Bool.not_eq_true _ ▸ hskip, rfl⟩
        · exact Or.inl rfl
    · exact Or.inr ⟨c2, List.mem_cons_of_mem c hc2, ht, he⟩

/-- C5: (a) a "suggested"/"unmatched" row's candidate is always a company
whose `invoice_customer_id` is not set; (b) an external customer pointed to by
some company's `invoice_customer_id` is emitted with score 100 and status
"linked". -/
theorem C5_theorem (companies : List Company) (ics : List InvCustomer) :
    (∀ r ∈ bulkMatch companies ics,
       r.status = "suggested" ∨ r.status = "unmatched" →
       ∀ m, r.best = some m →
       ∃ c ∈ companies, m.id = c.id ∧ m.name = c.name ∧
         truthyOpt c.invoice_customer_id = false) ∧
    (∀ ic ∈ ics, (∃ c ∈ companies, c.invoice_customer_id = some ic.id) →
       ∃ r ∈ bulkMatch companies ics,
         r.invoiceCustomer = ic ∧ r.score = 100 ∧ r.status = "linked") := by
  constructor
  · intro r hr hst m hm
    rw [bulkMatch, List.mem_insertionSort] at hr
    rcases List.mem_map.1 hr with ⟨ic, _, rfl⟩
    cases hfind : companies.find? (fun c => c.invoice_customer_id == some ic.id) with
    | some lc =>
      simp only [bulkEntry, hfind] at hst
      rcases hst with h | h <;> simp at h
    | none =>
      simp only [bulkEntry, hfind] at hm
      rcases bulkStep_foldl_best ic companies (0, none) with h | ⟨c, hc, ht, he⟩
      · rw [h] at hm
        simp at hm
      · rw [he] at hm
        obtain rfl : m = ⟨c.id, c.name⟩ := (Option.some_inj.1 hm).symm
        exact ⟨c, hc, rfl, rfl, ht⟩
  · rintro ic hic ⟨c, hc, hlink⟩
    cases hfind : companies.find? (fun c2 => c2.invoice_customer_id == some ic.id) with
    | none =>
      have := List.find?_eq_none.1 hfind c hc
      simp [hlink] at this
    | some lc =>
      refine ⟨bulkEntry companies ic, ?_, ?_, ?_, ?_⟩
      · rw [bulkMatch, List.mem_insertionSort]
        exact List.mem_map_of_mem _ hic
      · simp [bulkEntry, hfind]
      · simp [bulkEntry, hfind]
      · simp [bulkEntry, hfind]

/-- C10: a company whose `invoice_customer_id` is set is excluded from
candidate scoring; if no supplied external customer carries that id, the
company is never the candidate of any result row. -/
theorem C10_theorem (companies : List Company) (ics : List InvCustomer) (c : Company)
    (_hc : c ∈ companies) (hset : truthyOpt c.invoice_customer_id = true)
    (habs : ∀ ic ∈ ics, c.invoice_customer_id ≠ some ic.id)
    (huniq : ∀ c2 ∈ companies, c2.id = c.id → c2 = c) :
    ∀ r ∈ bulkMatch companies ics, ∀ m, r.best = some m → m.id ≠ c.id := by
  intro r hr m hm heq
  rw [bulkMatch, List.mem_insertionSort] at hr
  rcases List.mem_map.1 hr with ⟨ic, hic, rfl⟩
  cases hfind : companies.find? (fun c2 => c2.invoice_customer_id == some ic.id) with
  | some lc =>
    simp only [bulkEntry, hfind] at hm
    obtain rfl : m = (⟨lc.id, lc.name⟩ : MatchRef) := (Option.some_inj.1 hm).symm
    have hlc : lc ∈ companies := List.mem_of_find?_eq_some hfind
    have hlceq : lc = c := huniq lc hlc heq
    have hp := List.find?_some hfind
    simp only [beq_iff_eq] at hp
    rw [hlceq] at hp
    exact habs ic hic hp
  | none =>
    simp only [bulkEntry, hfind] at hm
    rcases bulkStep_foldl_best ic companies (0, none) with h | ⟨c2, hc2, ht, he⟩
    · rw [h] at hm
      simp at hm
    · rw [he] at hm
      obtain rfl : m = (⟨c2.id, c2.name⟩ : MatchRef) := (Option.some_inj.1 hm).symm
      have hc2eq : c2 = c := huniq c2 hc2 heq
      rw [hc2eq] at ht
      rw [ht] at hset
      exact absurd hset (by simp)

/-- Witness for `C5_theorem` at a concrete two-company, two-customer input. -/
theorem C5_witness :
    (∃ c ∈ [({ id := "L1", name := "Linked Co", invoice_customer_id := some "i1" } : Company),
            { id := "U1", name := "Beta" }],
       "U1" = c.id ∧ "Beta" = c.name ∧ truthyOpt c.invoice_customer_id = false) ∧
    (∃ r ∈ bulkMatch
        [({ id := "L1", name := "Linked Co", invoice_customer_id := some "i1" } : Company),
         { id := "U1", name := "Beta" }]
        [({ id := "i1", companyName := "Linked Co" } : InvCustomer),
         { id := "i2", companyName := "Beta" }],
       r.invoiceCustomer = { id := "i1", companyName := "Linked Co" } ∧
         r.score = 100 ∧ r.status = "linked") := by
  constructor
  · exact (C5_theorem
      [({ id := "L1", name := "Linked Co", invoice_customer_id := some "i1" } : Company),
       { id := "U1", name := "Beta" }]
      [({ id := "i1", companyName := "Linked Co" } : InvCustomer),
       { id := "i2", companyName := "Beta" }]).1
      ⟨{ id := "i2", companyName := "Beta" }, some ⟨"U1", "Beta"⟩, 100, "suggested"⟩
      (by decide) (Or.inl rfl) ⟨"U1", "Beta"⟩ rfl
  · exact (C5_theorem
      [({ id := "L1", name := "Linked Co", invoice_customer_id := some "i1" } : Company),
       { id := "U1", name := "Beta" }]
      [({ id := "i1", companyName := "Linked Co" } : InvCustomer),
       { id := "i2", companyName := "Beta" }]).2
      { id := "i1", companyName := "Linked Co" } (by decide)
      ⟨{ id := "L1", name := "Linked Co", invoice_customer_id := some "i1" }, by decide, by decide⟩

/-- Witness for `C10_theorem`: the linked company "c1" points at an absent
external id "X" and is never proposed; the unlinked "c2" is the candidate. -/
theorem C10_witness :
    ({ id := "c1", name := "Acme", invoice_customer_id := some "X" } : Company) ∈
      [({ id := "c1", name := "Acme", invoice_customer_id := some "X" } : Company),
       { id := "c2", name := "Beta" }] ∧
    truthyOpt (({ id := "c1", name := "Acme", invoice_customer_id := some "X" } : Company)).invoice_customer_id = true ∧
    (∀ ic ∈ [({ id := "i1", companyName := "Beta" } : InvCustomer)],
       (({ id := "c1", name := "Acme", invoice_customer_id := some "X" } : Company)).invoice_customer_id ≠ some ic.id) ∧
    ("c2" : String) ≠ "c1" := by
  refine ⟨by decide, by decide, by decide, ?_⟩
  exact C10_theorem
    [({ id := "c1", name := "Acme", invoice_customer_id := some "X" } : Company),
     { id := "c2", name := "Beta" }]
    [({ id := "i1", companyName := "Beta" } : InvCustomer)]
    { id := "c1", name := "Acme", invoice_customer_id := some "X" }
    (by decide) (by decide) (by decide) (by decide)
    ⟨{ id := "i1", companyName := "Beta" }, some ⟨"c2", "Beta"⟩, 100, "suggested"⟩
    (by decide) ⟨"c2", "Beta"⟩ rfl

/-! ## C6 / C7 — link enrichment guards and idempotence -/

/-- C6 (amended): linkCompany copies phone, email and contact_name only into
currently-empty company fields; the address sub-fields are considered only
when `company.address` is empty and the external record has an address —
within that block street, city, state and zip are each guarded individually.
A populated `company.address` therefore blocks filling an empty city, state
or zip. -/
theorem C6_amended (store : ExtStore) (company : Company) (icId : String) (cd : ExtCustData)
    (hcd : store.customers.lookup icId = some cd) :
    (linkCore (some store) company icId).phone
        = (if company.phone == "" && cd.phone != "" then some cd.phone else none) ∧
    (linkCore (some store) company icId).email
        = (if !company.email.truthy && decide (0 < cd.emailContacts.length)
           then cd.emailContacts.head?.map emailOf else none) ∧
    (linkCore (some store) company icId).contact_name
        = (if company.contact_name == "" && joinName cd.firstName cd.lastName != ""
           then some (joinName cd.firstName cd.lastName) else none) ∧
    (linkCore (some store) company icId).address
        = (match cd.address with
           | some ad => if company.address == "" && ad.street != "" then some ad.street else none
           | none => none) ∧
    (linkCore (some store) company icId).city
        = (match cd.address with
           | some ad => if company.address == "" && (ad.city != "" && company.city == "")
                        then some ad.city else none
           | none => none) ∧
    (linkCore (some store) company icId).state
        = (match cd.address with
           | some ad => if company.address == "" && (ad.state != "" && company.state == "")
                        then some ad.state else none
           | none => none) ∧
    (linkCore (some store) company icId).zip
        = (match cd.address with
           | some ad => if company.address == "" && (ad.zip != "" && company.zip == "")
                        then some ad.zip else none
           | none => none) := by
  have hred : linkCore (some store) company icId
      = dateTypeUpdates store company icId
          (enrichUpdates company cd { invoice_customer_id := some icId }) := by
    simp only [linkCore, hcd]
  rw [hred]
  simp only [dateTypeUpdates, enrichUpdates]
  refine ⟨trivial, trivial, ?_, ?_, ?_, ?_, ?_⟩
  · cases ha : (company.contact_name == "") <;>
      cases hb : (joinName cd.firstName cd.lastName != "") <;> simp [ha, hb]
  · cases had : cd.address with
    | none => rfl
    | some ad =>
      cases ha : (company.address == "") <;> cases hb : (ad.street != "") <;> simp [ha, hb]
  · cases had : cd.address with
    | none => rfl
    | some ad => cases ha : (company.address == "") <;> simp [ha]
  · cases had : cd.address with
    | none => rfl
    | some ad => cases ha : (company.address == "") <;> simp [ha]
  · cases had : cd.address with
    | none => rfl
    | some ad => cases ha : (company.address == "") <;> simp [ha]

/-- C6 (counterexample): the claim that "an empty city ... is filled from the
external address even when other fields such as the street address are
already populated" is false: with `company.address = "1 Main St"` and an
empty city, the external city "Dover" is not copied (while it is copied when
`company.address` is empty). -/
theorem C6_counterexample :
    (({ id := "c3", address := "1 Main St", city := "" } : Company)).city = "" ∧
    ("Dover" : String) ≠ "" ∧
    (linkCore
      (some { customers := [("x1",
        { address := some { street := "2 Oak St", city := "Dover", state := "DE", zip := "19901" } })] })
      { id := "c3", address := "1 Main St", city := "" } "x1").city = none ∧
    (linkCore
      (some { customers := [("x1",
        { address := some { street := "2 Oak St", city := "Dover", state := "DE", zip := "19901" } })] })
      { id := "c3" } "x1").city = some "Dover" := by
  refine ⟨rfl, by decide, by decide, by decide⟩

/-- Witness for `C6_amended` at a concrete store and company. -/
theorem C6_witness :
    ((({ customers := [("x1",
        { address := some { street := "2 Oak St", city := "Dover", state := "DE", zip := "19901" } })] }
      : ExtStore)).customers.lookup "x1"
      = some { address := some { street := "2 Oak St", city := "Dover", state := "DE", zip := "19901" } }) ∧
    (linkCore
      (some { customers := [("x1",
        { address := some { street := "2 Oak St", city := "Dover", state := "DE", zip := "19901" } })] })
      { id := "c3", address := "1 Main St", city := "" } "x1").phone = none ∧
    (linkCore
      (some { customers := [("x1",
        { address := some { street := "2 Oak St", city := "Dover", state := "DE", zip := "19901" } })] })
      { id := "c3", address := "1 Main St", city := "" } "x1").city = none :=
  ⟨rfl,
   (C6_amended
      { customers := [("x1",
        { address := some { street := "2 Oak St", city := "Dover", state := "DE", zip := "19901" } })] }
      { id := "c3", address := "1 Main St", city := "" } "x1"
      { address := some { street := "2 Oak St", city := "Dover", state := "DE", zip := "19901" } }
      rfl).1,
   (C6_amended
      { customers := [("x1",
        { address := some { street := "2 Oak St", city := "Dover", state := "DE", zip := "19901" } })] }
      { id := "c3", address := "1 Main St", city := "" } "x1"
      { address := some { street := "2 Oak St", city := "Dover", state := "DE", zip := "19901" } }
      rfl).2.2.2.2.1⟩

/-- Second-run update characterization: after applying a first link's updates,
a second run of the link computation produces no enrichment copy, no type
upgrade entry, and the same date sync values. -/
theorem linkCore_second (store : ExtStore) (company : Company) (icId : String) :
    (linkCore (some store) (applyUpdates company (linkCore (some store) company icId)) icId).phone
        = none ∧
    (linkCore (some store) (applyUpdates company (linkCore (some store) company icId)) icId).contact_name
        = none ∧
    (linkCore (some store) (applyUpdates company (linkCore (some store) company icId)) icId).city
        = none ∧
    (((linkCore (some store) (applyUpdates company (linkCore (some store) company icId)) icId).email.map
        EmailVal.truthy).getD false
      && !(applyUpdates company (linkCore (some store) company icId)).email.truthy) = false ∧
    (((linkCore (some store) (applyUpdates company (linkCore (some store) company icId)) icId).type
        == some "Customer")
      && (applyUpdates company (linkCore (some store) company icId)).type != "Customer") = false ∧
    (linkCore (some store) (applyUpdates company (linkCore (some store) company icId)) icId).last_order_date
        = latestDate ((store.invoices.filter (fun i => i.customerId == icId)).map InvDoc.date) ∧
    (linkCore (some store) (applyUpdates company (linkCore (some store) company icId)) icId).last_estimate_date
        = latestDate ((store.estimates.filter (fun e => e.customerId == icId)).map EstDoc.date) := by
  refine ⟨?_, ?_, ?_, ?_, ?_, ?_, ?_⟩
  -- phone
  · cases hlook : store.customers.lookup icId with
    | none => simp only [linkCore, hlook, dateTypeUpdates]
    | some cd =>
      simp only [linkCore, hlook, dateTypeUpdates, enrichUpdates, applyUpdates]
      by_cases h1 : (company.phone == "") = true <;> by_cases h2 : (cd.phone != "") = true <;>
        simp_all
  -- contact_name
  · cases hlook : store.customers.lookup icId with
    | none => simp only [linkCore, hlook, dateTypeUpdates]
    | some cd =>
      simp only [linkCore, hlook, dateTypeUpdates, enrichUpdates, applyUpdates]
      by_cases h1 : (company.contact_name == "") = true <;>
        by_cases h2 : (joinName cd.firstName cd.lastName != "") = true <;>
        simp_all
  -- city
  · cases hlook : store.customers.lookup icId with
    | none => simp only [linkCore, hlook, dateTypeUpdates]
    | some cd =>
      simp only [linkCore, hlook, dateTypeUpdates, enrichUpdates, applyUpdates]
      cases had : cd.address with
      | none => simp
      | some ad =>
        by_cases ha : (company.address == "") = true <;>
          by_cases hs : (ad.street != "") = true <;>
          by_cases hc : (ad.city != "") = true <;>
          by_cases hcc : (company.city == "") = true <;>
          simp_all
  -- email
  · cases hlook : store.customers.lookup icId with
    | none => simp only [linkCore, hlook, dateTypeUpdates]; simp
    | some cd =>
      simp only [linkCore, hlook, dateTypeUpdates, enrichUpdates, applyUpdates]
      cases hlist : cd.emailContacts with
      | nil => simp
      | cons e tl =>
        by_cases hce : company.email.truthy = true <;>
          by_cases ht : (emailOf e).truthy = true <;> simp_all
  -- type
  · cases hlook : store.customers.lookup icId with
    | none =>
      simp only [linkCore, hlook, dateTypeUpdates, applyUpdates]
      by_cases hl : (((store.invoices.filter (fun i => i.customerId == icId)).length != 0) = true) <;>
        by_cases hct : ((company.type != "Customer") = true) <;>
        simp_all
    | some cd =>
      simp only [linkCore, hlook, dateTypeUpdates, enrichUpdates, applyUpdates]
      by_cases hl : (((store.invoices.filter (fun i => i.customerId == icId)).length != 0) = true) <;>
        by_cases hct : ((company.type != "Customer") = true) <;>
        simp_all
  -- last_order_date
  · cases hlook : store.customers.lookup icId with
    | none =>
      simp only [linkCore, hlook, dateTypeUpdates]
      cases hinv : latestDate ((store.invoices.filter (fun i => i.customerId == icId)).map InvDoc.date) <;>
        simp
    | some cd =>
      simp only [linkCore, hlook, dateTypeUpdates, enrichUpdates]
      cases hinv : latestDate ((store.invoices.filter (fun i => i.customerId == icId)).map InvDoc.date) <;>
        simp
  -- last_estimate_date
  · cases hlook : store.customers.lookup icId with
    | none =>
      simp only [linkCore, hlook, dateTypeUpdates]
      cases hest : latestDate ((store.estimates.filter (fun e => e.customerId == icId)).map EstDoc.date) <;>
        simp
    | some cd =>
      simp only [linkCore, hlook, dateTypeUpdates, enrichUpdates]
      cases hest : latestDate ((store.estimates.filter (fun e => e.customerId == icId)).map EstDoc.date) <;>
        simp

/-- C7 (amended): re-running the link on the already-enriched company yields
a change summary with no field-copy entry and no type entry; the
last-order-date / last-estimate-date sync entries alone recur, exactly when
the external store holds a dated invoice / estimate for the customer —
they are reported on every run regardless of change. -/
theorem C7_amended (store : ExtStore) (company : Company) (icId : String) :
    autoUpdated (applyUpdates company (linkCore (some store) company icId))
        (linkCore (some store) (applyUpdates company (linkCore (some store) company icId)) icId)
      = (if truthyOpt (latestDate ((store.invoices.filter (fun i => i.customerId == icId)).map InvDoc.date))
         then ["last order date synced"] else []) ++
        (if truthyOpt (latestDate ((store.estimates.filter (fun e => e.customerId == icId)).map EstDoc.date))
         then ["last estimate date synced"] else []) := by
  obtain ⟨hp, hcn, hcity, hemail, htype, hord, hest⟩ := linkCore_second store company icId
  simp [autoUpdated, hp, hcn, hcity, hemail, htype, hord, hest, truthyOpt]

/-- C7 (counterexample): the claim that the repeat run produces an *empty*
changeSummary is false: with one dated invoice in the store, the second run
still reports "last order date synced". -/
theorem C7_counterexample :
    autoUpdated
      (applyUpdates { id := "c4" }
        (linkCore (some { customers := [("x1", { phone := "302", firstName := "A" })],
                          invoices := [{ customerId := "x1", date := some "2024-01-01" }] })
          { id := "c4" } "x1"))
      (linkCore (some { customers := [("x1", { phone := "302", firstName := "A" })],
                        invoices := [{ customerId := "x1", date := some "2024-01-01" }] })
        (applyUpdates { id := "c4" }
          (linkCore (some { customers := [("x1", { phone := "302", firstName := "A" })],
                            invoices := [{ customerId := "x1", date := some "2024-01-01" }] })
            { id := "c4" } "x1"))
        "x1")
      = ["last order date synced"] ∧
    (["last order date synced"] : List String) ≠ [] := by
  refine ⟨by decide, by decide⟩
